import Mathlib

/-!
Verification development for the relay-station adapter and provider-switch
subsystem. Definitions are shallow embeddings of the functions in
`src-tauri/src/commands/provider.rs` and
`src-tauri/src/commands/relay_stations.rs`; theorems settle the
specification claims against them.
-/

/-- JSON scalar values as used by the embedded functions (the source only ever
inspects values with `as_str` / `as_bool`; structured values never flow through
the operations modelled here). -/
inductive JsonVal where
  | str (s : String)
  | boolean (b : Bool)
  | num (n : Int)
  | null
deriving Repr, DecidableEq

/-- `serde_json::Value::as_str`. -/
def JsonVal.asStr : JsonVal → Option String
  | .str s => some s
  | _ => none

/-- `serde_json::Value::as_bool`. -/
def JsonVal.asBool : JsonVal → Option Bool
  | .boolean b => some b
  | _ => none

/-- A `HashMap<String, serde_json::Value>` modelled as an association list. -/
abbrev EnvMap := List (String × JsonVal)

/-- `HashMap::get`. -/
def envGet (m : EnvMap) (k : String) : Option JsonVal :=
  (m.find? (fun p => p.1 = k)).map (·.2)

/-- `HashMap::insert`: the key is bound to the new value, all other bindings
are kept. -/
def envInsert (m : EnvMap) (k : String) (v : JsonVal) : EnvMap :=
  (k, v) :: m.filter (fun p => p.1 ≠ k)

/-- `HashMap::remove`. -/
def envRemove (m : EnvMap) (k : String) : EnvMap :=
  m.filter (fun p => p.1 ≠ k)

/-- `env.get(key).and_then(as_str)`. -/
def envStr (m : EnvMap) (k : String) : Option String :=
  (envGet m k).bind JsonVal.asStr

/-- `env.get(key).and_then(as_str).filter(non-empty).is_some()` — the
non-empty-string test the source applies to the auth keys. -/
def envHasNonEmptyStr (m : EnvMap) (k : String) : Bool :=
  match envStr m k with
  | some s => !s.isEmpty
  | none => false

/-- `ClaudeSettings` from provider.rs: the optional `env` sub-map plus the
`#[serde(flatten)]` map `other` of all remaining top-level keys. -/
structure ClaudeSettings where
  env : Option EnvMap
  other : List (String × JsonVal)
deriving Repr, DecidableEq

/-- `ProviderConfig` from provider.rs. -/
structure ProviderConfig where
  id : String
  name : String
  description : String
  base_url : String
  auth_token : Option String
  api_key : Option String
  model : Option String
deriving Repr, DecidableEq

/-- The in-memory mutation performed by `update_settings_env`: initialise
`env` when absent, then insert the key (for `Some(val)`) or remove it (for
`None`). -/
def updateSettingsEnv (s : ClaudeSettings) (key : String) (value : Option String) :
    ClaudeSettings :=
  let envVars := s.env.getD []
  let envVars' :=
    match value with
    | some v => envInsert envVars key (JsonVal.str v)
    | none => envRemove envVars key
  { s with env := some envVars' }

/-- The four (key, value-or-removal) writes issued by
`switch_provider_config`, in source order: the base URL is always written;
auth token, API key and model are written when present, removed when absent. -/
def switchWrites (config : ProviderConfig) : List (String × Option String) :=
  [("ANTHROPIC_BASE_URL", some config.base_url),
   ("ANTHROPIC_AUTH_TOKEN", config.auth_token),
   ("ANTHROPIC_API_KEY", config.api_key),
   ("ANTHROPIC_MODEL", config.model)]

/-- Runs a sequence of `update_settings_env` calls against the settings file.
Each call re-reads the document, mutates it and writes it back; `oracle` says
whether each file write succeeds. On the first failing write the error is
surfaced immediately (`?` in the source) and the file keeps the state produced
by the preceding successful writes. -/
def runSettingsWrites : List Bool → ClaudeSettings → List (String × Option String) →
    ClaudeSettings × Except String Unit
  | _, doc, [] => (doc, .ok ())
  | oracle, doc, w :: rest =>
    if oracle.headD true then
      runSettingsWrites oracle.tail (updateSettingsEnv doc w.1 w.2) rest
    else
      (doc, .error ("写入 Claude settings 文件失败: " ++ w.1))

/-- `switch_provider_config`: performs the four writes in order and reports
the source's success message when all of them go through. -/
def switchProviderConfig (oracle : List Bool) (doc : ClaudeSettings)
    (config : ProviderConfig) : ClaudeSettings × Except String String :=
  match runSettingsWrites oracle doc (switchWrites config) with
  | (doc', .ok ()) =>
    (doc', .ok ("已成功切换到 " ++ config.name ++ " (" ++ config.description ++
      ")，配置已保存到 Raw Settings"))
  | (doc', .error e) => (doc', .error e)

/-- Reads key `k` of the document's env map (absent env map reads as empty). -/
def envGetDoc (doc : ClaudeSettings) (k : String) : Option JsonVal :=
  envGet (doc.env.getD []) k

/-- `is_provider_applied`: requires the env map to exist and contain a string
base URL, and then that the URL differs from the canonical endpoint or
non-empty auth material is present. -/
def isProviderApplied (doc : ClaudeSettings) : Bool :=
  match doc.env with
  | some env =>
    let baseUrl := envStr env "ANTHROPIC_BASE_URL"
    let hasAuth := envHasNonEmptyStr env "ANTHROPIC_AUTH_TOKEN" ||
      envHasNonEmptyStr env "ANTHROPIC_API_KEY"
    baseUrl.isSome && (decide (baseUrl ≠ some "https://api.anthropic.com") || hasAuth)
  | none => false

/-- Modelled from the spec: the property `is_applied()` is claimed to decide —
a base URL differing from the canonical public endpoint is present, or
non-empty auth material is present. Stated for refinement comparison with
`isProviderApplied`. -/
def specIsApplied (doc : ClaudeSettings) : Bool :=
  match doc.env with
  | some env =>
    (match envStr env "ANTHROPIC_BASE_URL" with
     | some u => decide (u ≠ "https://api.anthropic.com")
     | none => false) ||
    (envHasNonEmptyStr env "ANTHROPIC_AUTH_TOKEN" ||
     envHasNonEmptyStr env "ANTHROPIC_API_KEY")
  | none => false

/-- `detect_current_provider`: with an env map containing a string base URL
and non-empty auth material, match the URL against the stored provider
configs in file order; on a match return that provider's id, otherwise
"official" for the canonical endpoint and "custom" for anything else; with no
base URL or no auth material return `none`. -/
def detectCurrentProvider (doc : ClaudeSettings) (providers : List ProviderConfig) :
    Option String :=
  match doc.env with
  | some env =>
    let hasAuth := envHasNonEmptyStr env "ANTHROPIC_AUTH_TOKEN" ||
      envHasNonEmptyStr env "ANTHROPIC_API_KEY"
    match envStr env "ANTHROPIC_BASE_URL" with
    | some url =>
      if hasAuth then
        match providers.find? (fun p => decide (p.base_url = url)) with
        | some p => some p.id
        | none =>
          if url = "https://api.anthropic.com" then some "official"
          else some "custom"
      else none
    | none => none
  | none => none

/-- `RelayStationAdapter` from relay_stations.rs. -/
inductive RelayStationAdapter where
  | Newapi
  | Oneapi
  | Custom
deriving Repr, DecidableEq

/-- `AuthMethod` from relay_stations.rs. -/
inductive AuthMethod where
  | BearerToken
  | ApiKey
  | Custom
deriving Repr, DecidableEq

/-- `RelayStation` from relay_stations.rs. -/
structure RelayStation where
  id : String
  name : String
  description : Option String
  api_url : String
  adapter : RelayStationAdapter
  auth_method : AuthMethod
  system_token : String
  user_id : Option String
  adapter_config : Option (List (String × JsonVal))
  enabled : Bool
  created_at : Int
  updated_at : Int
deriving Repr, DecidableEq

/-- `RelayStationToken` from relay_stations.rs. -/
structure RelayStationToken where
  id : String
  station_id : String
  name : String
  token : String
  user_id : Option String
  enabled : Bool
  expires_at : Option Int
  metadata : Option (List (String × JsonVal))
  created_at : Int
deriving Repr, DecidableEq

/-- `CreateRelayStationRequest` from relay_stations.rs. -/
structure CreateRelayStationRequest where
  name : String
  description : Option String
  api_url : String
  adapter : RelayStationAdapter
  auth_method : AuthMethod
  system_token : String
  user_id : Option String
  adapter_config : Option (List (String × JsonVal))
  enabled : Bool
deriving Repr, DecidableEq

/-- State of the two SQLite tables managed by `RelayStationManager`: rows of
`relay_stations` and `relay_station_tokens` in insertion order. -/
structure StoreState where
  stations : List RelayStation
  tokens : List RelayStationToken
deriving Repr, DecidableEq

/-- Descending insertion for `ORDER BY created_at DESC` over station rows. -/
def insertStationDesc (s : RelayStation) : List RelayStation → List RelayStation
  | [] => [s]
  | u :: us =>
    if u.created_at ≤ s.created_at then s :: u :: us
    else u :: insertStationDesc s us

/-- `ORDER BY created_at DESC` over station rows. -/
def sortStationsDesc : List RelayStation → List RelayStation
  | [] => []
  | s :: ss => insertStationDesc s (sortStationsDesc ss)

/-- Descending insertion for `ORDER BY created_at DESC` over token rows. -/
def insertTokenDesc (t : RelayStationToken) : List RelayStationToken → List RelayStationToken
  | [] => [t]
  | u :: us =>
    if u.created_at ≤ t.created_at then t :: u :: us
    else u :: insertTokenDesc t us

/-- `ORDER BY created_at DESC` over token rows. -/
def sortTokensDesc : List RelayStationToken → List RelayStationToken
  | [] => []
  | t :: ts => insertTokenDesc t (sortTokensDesc ts)

/-- `RelayStationManager::list_stations`:
`SELECT * FROM relay_stations ORDER BY created_at DESC`. -/
def listStations (st : StoreState) : List RelayStation :=
  sortStationsDesc st.stations

/-- `RelayStationManager::get_station`:
`SELECT * FROM relay_stations WHERE id = ?1`, absent row gives `None`. -/
def getStation (st : StoreState) (sid : String) : Option RelayStation :=
  st.stations.find? (fun s => decide (s.id = sid))

/-- `RelayStationManager::add_station`: `INSERT INTO relay_stations ...`. -/
def addStation (st : StoreState) (s : RelayStation) : StoreState :=
  { st with stations := st.stations ++ [s] }

/-- `RelayStationManager::delete_station`:
`DELETE FROM relay_stations WHERE id = ?1`, executed under the schema of
`init_tables`, whose `relay_station_tokens` table declares
`FOREIGN KEY (station_id) REFERENCES relay_stations (id) ON DELETE CASCADE`,
so the rows of both tables whose (station) id matches are removed. -/
def deleteStation (st : StoreState) (sid : String) : StoreState :=
  { stations := st.stations.filter (fun s => decide (s.id ≠ sid)),
    tokens := st.tokens.filter (fun t => decide (t.station_id ≠ sid)) }

/-- `RelayStationManager::list_tokens`:
`SELECT * FROM relay_station_tokens WHERE station_id = ?1 ORDER BY created_at DESC`. -/
def listTokens (st : StoreState) (sid : String) : List RelayStationToken :=
  sortTokensDesc (st.tokens.filter (fun t => decide (t.station_id = sid)))

/-- The station-update whitelist of `RelayStationManager::update_station`:
the keys of the sparse map that contribute a `SET` clause. -/
def stationKeyRecognized (k : String) : Bool :=
  k = "name" || k = "description" || k = "api_url" || k = "system_token" ||
  k = "user_id" || k = "enabled"

/-- Effect of one recognized key of the sparse map on a station row, with the
source's value coercions (`as_str().unwrap_or("")` for required text columns,
`as_str()` for nullable ones, `as_bool().unwrap_or(false)` for `enabled`);
unrecognized keys leave the row unchanged. -/
def applyStationField (s : RelayStation) (k : String) (v : JsonVal) : RelayStation :=
  if k = "name" then { s with name := (v.asStr).getD "" }
  else if k = "description" then { s with description := v.asStr }
  else if k = "api_url" then { s with api_url := (v.asStr).getD "" }
  else if k = "system_token" then { s with system_token := (v.asStr).getD "" }
  else if k = "user_id" then { s with user_id := v.asStr }
  else if k = "enabled" then { s with enabled := (v.asBool).getD false }
  else s

/-- `RelayStationManager::update_station`: when at least one key of the sparse
map is whitelisted, issue `UPDATE relay_stations SET <recognized keys>,
updated_at = ? WHERE id = ?` with `now` as the timestamp; otherwise execute
nothing and return success. -/
def updateStation (st : StoreState) (sid : String)
    (updates : List (String × JsonVal)) (now : Int) : StoreState :=
  if updates.any (fun kv => stationKeyRecognized kv.1) then
    { st with
      stations := st.stations.map (fun s =>
        if s.id = sid then
          { updates.foldl (fun acc kv => applyStationField acc kv.1 kv.2) s with
            updated_at := now }
        else s) }
  else st

/-- `list_relay_stations` command: with no initialized manager it returns an
empty list; otherwise it lists the stored stations. -/
def listRelayStations (mgr : Option StoreState) : Except String (List RelayStation) :=
  match mgr with
  | some st => .ok (listStations st)
  | none => .ok []

/-- `get_relay_station` command: with no initialized manager it returns
`None`; otherwise it looks the station up. -/
def getRelayStation (mgr : Option StoreState) (sid : String) :
    Except String (Option RelayStation) :=
  match mgr with
  | some st => .ok (getStation st sid)
  | none => .ok none

/-- `add_relay_station` command: with no initialized manager it returns an
explicit error; otherwise it inserts the station built from the request
(`newId` stands for the generated UUID, `now` for the current timestamp). -/
def addRelayStation (mgr : Option StoreState) (req : CreateRelayStationRequest)
    (newId : String) (now : Int) : Except String (StoreState × String) :=
  match mgr with
  | some st =>
    .ok (addStation st
      { id := newId, name := req.name, description := req.description,
        api_url := req.api_url, adapter := req.adapter,
        auth_method := req.auth_method, system_token := req.system_token,
        user_id := req.user_id, adapter_config := req.adapter_config,
        enabled := req.enabled, created_at := now, updated_at := now },
      "Station added successfully")
  | none => .error "Relay station manager not initialized"

/-- `update_relay_station` command: error when the manager is not
initialized, otherwise the sparse update. -/
def updateRelayStation (mgr : Option StoreState) (sid : String)
    (updates : List (String × JsonVal)) (now : Int) :
    Except String (StoreState × String) :=
  match mgr with
  | some st => .ok (updateStation st sid updates now, "Station updated successfully")
  | none => .error "Relay station manager not initialized"

/-- `delete_relay_station` command: error when the manager is not
initialized, otherwise the (cascading) delete. -/
def deleteRelayStation (mgr : Option StoreState) (sid : String) :
    Except String (StoreState × String) :=
  match mgr with
  | some st => .ok (deleteStation st sid, "Station deleted successfully")
  | none => .error "Relay station manager not initialized"

/-- `ConnectionTestResult` from relay_stations.rs. -/
structure ConnectionTestResult where
  success : Bool
  response_time : Option Nat
  message : String
  status_code : Option Nat
  details : Option (List (String × JsonVal))
deriving Repr, DecidableEq

/-- Outcome of the single outbound `GET /api/status` issued by
`NewApiAdapter::test_connection`: either a transport-level failure with an
error description, or an HTTP response with its status code and the measured
round-trip time in milliseconds. -/
inductive HttpOutcome where
  | failure (err : String)
  | response (status : Nat) (elapsedMs : Nat)
deriving Repr, DecidableEq

/-- `reqwest::StatusCode::is_success`: 2xx. -/
def statusIsSuccess (status : Nat) : Bool :=
  200 ≤ status && status ≤ 299

/-- `NewApiAdapter::test_connection`: every outcome of the outbound call is
mapped to an `Ok` result value; transport failures carry no timing or status,
non-2xx responses carry both and the message `HTTP <code>`. -/
def testConnection (outcome : HttpOutcome) : Except String ConnectionTestResult :=
  match outcome with
  | .response status elapsed =>
    if statusIsSuccess status then
      .ok { success := true, response_time := some elapsed,
            message := "Connection successful", status_code := some status,
            details := none }
    else
      .ok { success := false, response_time := some elapsed,
            message := "HTTP " ++ toString status, status_code := some status,
            details := none }
  | .failure err =>
    .ok { success := false, response_time := none,
          message := "Connection failed: " ++ err, status_code := none,
          details := none }

/-- Sample station row used to exercise the store operations. -/
def wStation : RelayStation :=
  { id := "s1", name := "Main", description := none,
    api_url := "https://relay.example", adapter := .Newapi,
    auth_method := .BearerToken, system_token := "sys", user_id := none,
    adapter_config := none, enabled := true, created_at := 100,
    updated_at := 100 }

/-- Sample token row owned by `wStation`. -/
def wToken : RelayStationToken :=
  { id := "t1", station_id := "s1", name := "tok", token := "sk-1",
    user_id := none, enabled := true, expires_at := none, metadata := none,
    created_at := 101 }

/-- Sample store holding `wStation` and `wToken`. -/
def wStore : StoreState := { stations := [wStation], tokens := [wToken] }

/-- Sample settings document holding only a non-empty auth token. -/
def c2doc : ClaudeSettings :=
  { env := some [("ANTHROPIC_AUTH_TOKEN", JsonVal.str "tok")], other := [] }

/-- Sample settings document with an unrelated env entry and an unrelated
top-level key. -/
def c3doc : ClaudeSettings :=
  { env := some [("FOO", JsonVal.str "bar")],
    other := [("topLevel", JsonVal.str "keep")] }

/-- Sample provider config pointing at a relay endpoint. -/
def c3cfg : ProviderConfig :=
  { id := "r1", name := "Relay", description := "relay station",
    base_url := "https://relay.example", auth_token := some "tok",
    api_key := none, model := none }

/-- Sample env map with the canonical base URL and a non-empty auth token. -/
def c7env : EnvMap :=
  [("ANTHROPIC_BASE_URL", JsonVal.str "https://api.anthropic.com"),
   ("ANTHROPIC_AUTH_TOKEN", JsonVal.str "tok")]

/-- Sample settings document around `c7env`. -/
def c7doc : ClaudeSettings := { env := some c7env, other := [] }

/-- Sample env map whose base URL matches `c3cfg`. -/
def c7envRelay : EnvMap :=
  [("ANTHROPIC_BASE_URL", JsonVal.str "https://relay.example"),
   ("ANTHROPIC_AUTH_TOKEN", JsonVal.str "tok")]

/-- Sample settings document around `c7envRelay`. -/
def c7docRelay : ClaudeSettings := { env := some c7envRelay, other := [] }

lemma filter_ne_then_eq_nil (l : List RelayStationToken) (sid : String) :
    (l.filter (fun t => decide (t.station_id ≠ sid))).filter
      (fun t => decide (t.station_id = sid)) = [] := by
  induction l with
  | nil => rfl
  | cons t ts ih =>
    by_cases h : t.station_id = sid
    · simp [List.filter_cons, h, ih]
    · simp [List.filter_cons, h, ih]

lemma find?_filter_ne_self (m : EnvMap) (k : String) :
    (m.filter (fun p => p.1 ≠ k)).find? (fun p => p.1 = k) = none := by
  induction m with
  | nil => rfl
  | cons p ps ih =>
    by_cases hp : p.1 = k
    · simp [List.filter_cons, hp, ih]
    · simp [List.filter_cons, List.find?_cons, hp, ih]

lemma find?_filter_ne_other (m : EnvMap) (k k' : String) (h : k' ≠ k) :
    (m.filter (fun p => p.1 ≠ k)).find? (fun p => p.1 = k') =
      m.find? (fun p => p.1 = k') := by
  induction m with
  | nil => rfl
  | cons p ps ih =>
    by_cases hp : p.1 = k
    · have h1 : decide (p.1 ≠ k) = false := by
        simp [hp]
      have h2 : decide (p.1 = k') = false := decide_eq_false (by
        rw [hp]
        exact fun hh => h hh.symm)
      simp only [List.filter_cons, h1, List.find?_cons, h2]
      simp only [Bool.false_eq_true, if_false]
      exact ih
    · have h1 : decide (p.1 ≠ k) = true := by
        simp [hp]
      by_cases hp' : p.1 = k'
      · have h2 : decide (p.1 = k') = true := decide_eq_true hp'
        simp only [List.filter_cons, h1, if_true, List.find?_cons, h2]
      · have h2 : decide (p.1 = k') = false := decide_eq_false hp'
        simp only [List.filter_cons, h1, if_true, List.find?_cons, h2]
        exact ih

lemma envGet_envInsert_self (m : EnvMap) (k : String) (v : JsonVal) :
    envGet (envInsert m k v) k = some v := by
  simp [envGet, envInsert, List.find?_cons]

lemma envGet_envInsert_other (m : EnvMap) (k k' : String) (v : JsonVal)
    (h : k' ≠ k) :
    envGet (envInsert m k v) k' = envGet m k' := by
  have hk : decide ((k, v).1 = k') = false := decide_eq_false (fun hh => h hh.symm)
  simp only [envGet, envInsert, List.find?_cons, hk]
  rw [find?_filter_ne_other m k k' h]

lemma envGet_envRemove_self (m : EnvMap) (k : String) :
    envGet (envRemove m k) k = none := by
  simp only [envGet, envRemove]
  rw [find?_filter_ne_self]
  rfl

lemma envGet_envRemove_other (m : EnvMap) (k k' : String) (h : k' ≠ k) :
    envGet (envRemove m k) k' = envGet m k' := by
  simp only [envGet, envRemove]
  rw [find?_filter_ne_other m k k' h]

lemma envGetDoc_update_self (doc : ClaudeSettings) (k : String)
    (v : Option String) :
    envGetDoc (updateSettingsEnv doc k v) k = v.map JsonVal.str := by
  cases v with
  | some s => simp [envGetDoc, updateSettingsEnv, envGet_envInsert_self]
  | none => simp [envGetDoc, updateSettingsEnv, envGet_envRemove_self]

lemma envGetDoc_update_other (doc : ClaudeSettings) (k k' : String)
    (v : Option String) (h : k' ≠ k) :
    envGetDoc (updateSettingsEnv doc k v) k' = envGetDoc doc k' := by
  cases v with
  | some s => simp [envGetDoc, updateSettingsEnv, envGet_envInsert_other _ _ _ _ h]
  | none => simp [envGetDoc, updateSettingsEnv, envGet_envRemove_other _ _ _ h]

lemma other_update (doc : ClaudeSettings) (k : String) (v : Option String) :
    (updateSettingsEnv doc k v).other = doc.other := rfl

lemma runSettingsWrites_env_other (writes : List (String × Option String))
    (oracle : List Bool) (doc : ClaudeSettings) (k : String)
    (h : ∀ w ∈ writes, w.1 ≠ k) :
    envGetDoc (runSettingsWrites oracle doc writes).1 k = envGetDoc doc k ∧
    (runSettingsWrites oracle doc writes).1.other = doc.other := by
  induction writes generalizing oracle doc with
  | nil => exact ⟨rfl, rfl⟩
  | cons w ws ih =>
    simp only [runSettingsWrites]
    by_cases hok : oracle.headD true = true
    · rw [if_pos hok]
      have h2 := ih oracle.tail (updateSettingsEnv doc w.1 w.2)
        (fun w' hw' => h w' (List.mem_cons_of_mem _ hw'))
      have hk : k ≠ w.1 := fun he => (h w (List.mem_cons_self _ _)) he.symm
      exact ⟨h2.1.trans (envGetDoc_update_other doc w.1 k w.2 hk),
             h2.2.trans (other_update doc w.1 w.2)⟩
    · rw [if_neg hok]
      exact ⟨rfl, rfl⟩

lemma runSettingsWrites_all_ok (writes : List (String × Option String)) :
    ∀ (oracle : List Bool) (doc : ClaudeSettings), (∀ b ∈ oracle, b = true) →
      runSettingsWrites oracle doc writes =
        (writes.foldl (fun d w => updateSettingsEnv d w.1 w.2) doc, .ok ()) := by
  induction writes with
  | nil =>
    intro oracle doc _
    rfl
  | cons w ws ih =>
    intro oracle doc h
    have hhead : oracle.headD true = true := by
      cases oracle with
      | nil => rfl
      | cons b bs => exact h b (List.mem_cons_self _ _)
    have htail : ∀ b ∈ oracle.tail, b = true := by
      cases oracle with
      | nil =>
        intro b hb
        cases hb
      | cons b bs =>
        intro x hx
        exact h x (List.mem_cons_of_mem _ hx)
    simp only [runSettingsWrites, hhead, if_true, List.foldl_cons]
    exact ih oracle.tail (updateSettingsEnv doc w.1 w.2) htail

/-- C1: for every stored station `s` and every stored token whose
`station_id` equals `s.id`, `delete_station(s.id)` removes `s` and all such
tokens from the local store, and a subsequent local `list_tokens(s.id)`
returns the empty list. -/
theorem delete_station_cascade (st : StoreState) (s : RelayStation)
    (_hs : s ∈ st.stations) :
    s ∉ (deleteStation st s.id).stations ∧
    (∀ t ∈ st.tokens, t.station_id = s.id → t ∉ (deleteStation st s.id).tokens) ∧
    listTokens (deleteStation st s.id) s.id = [] := by
  refine ⟨?_, ?_, ?_⟩
  · intro hmem
    simp only [deleteStation, List.mem_filter, decide_eq_true_eq] at hmem
    exact hmem.2 rfl
  · intro t ht hts hmem
    simp only [deleteStation, List.mem_filter, decide_eq_true_eq] at hmem
    exact hmem.2 hts
  · simp only [listTokens, deleteStation]
    rw [filter_ne_then_eq_nil]
    rfl

/-- Witness for `delete_station_cascade` at the sample store. -/
theorem delete_station_cascade_witness :
    wStation ∈ wStore.stations ∧
    listTokens (deleteStation wStore wStation.id) wStation.id = [] := by
  have hs : wStation ∈ wStore.stations := by
    simp [wStore]
  exact ⟨hs, (delete_station_cascade wStore wStation hs).2.2⟩

/-- C8: for every transport-level failure of the outbound call,
`test_connection` returns a successful result value (not an error) with
`success = false`, a populated message describing the failure, and an absent
status code. -/
theorem test_connection_transport_nonerror (err : String) :
    testConnection (HttpOutcome.failure err) =
      .ok { success := false, response_time := none,
            message := "Connection failed: " ++ err, status_code := none,
            details := none } ∧
    0 < ("Connection failed: " ++ err).length := by
  refine ⟨rfl, ?_⟩
  have h1 : ("Connection failed: " ++ err).length =
      "Connection failed: ".length + err.length := String.length_append _ _
  have h2 : "Connection failed: ".length = 19 := rfl
  omega

/-- C9: with an uninitialized store, the read commands return benign
empty/absent results while every write command returns an explicit error. -/
theorem uninitialized_store_behavior (sid newId : String)
    (req : CreateRelayStationRequest) (updates : List (String × JsonVal))
    (now : Int) :
    listRelayStations none = .ok [] ∧
    getRelayStation none sid = .ok none ∧
    addRelayStation none req newId now =
      .error "Relay station manager not initialized" ∧
    updateRelayStation none sid updates now =
      .error "Relay station manager not initialized" ∧
    deleteRelayStation none sid =
      .error "Relay station manager not initialized" :=
  ⟨rfl, rfl, rfl, rfl, rfl⟩

/-- C10: for every non-2xx HTTP response, `test_connection` also returns a
successful result value with `success = false`, message `HTTP <status code>`,
and both the response time and the status code populated. -/
theorem test_connection_http_error (status elapsed : Nat)
    (h : statusIsSuccess status = false) :
    testConnection (HttpOutcome.response status elapsed) =
      .ok { success := false, response_time := some elapsed,
            message := "HTTP " ++ toString status, status_code := some status,
            details := none } := by
  simp [testConnection, h]

/-- Witness for `test_connection_http_error` at status 404. -/
theorem test_connection_http_error_witness :
    statusIsSuccess 404 = false ∧
    testConnection (HttpOutcome.response 404 12) =
      .ok { success := false, response_time := some 12,
            message := "HTTP 404", status_code := some 404,
            details := none } :=
  ⟨by decide, test_connection_http_error 404 12 (by decide)⟩

/-- C5: `update_station(id, {"name": x})` changes only the `name` and
`updated_at` columns of the matching row, leaving every other field and the
token table unchanged; and update maps whose keys are all outside the
whitelist are silently ignored (the store is returned unchanged, with no
error). -/
theorem update_station_sparse (st : StoreState) (sid x : String) (now : Int) :
    ((updateStation st sid [("name", JsonVal.str x)] now).stations =
        st.stations.map (fun s =>
          if s.id = sid then { s with name := x, updated_at := now } else s) ∧
      (updateStation st sid [("name", JsonVal.str x)] now).tokens = st.tokens) ∧
    ∀ updates : List (String × JsonVal),
      (∀ kv ∈ updates, stationKeyRecognized kv.1 = false) →
      updateStation st sid updates now = st := by
  refine ⟨⟨rfl, rfl⟩, ?_⟩
  intro updates h
  have hany : updates.any (fun kv => stationKeyRecognized kv.1) = false := by
    rw [List.any_eq_false]
    intro kv hkv
    simp [h kv hkv]
  simp [updateStation, hany]

/-- Witness for `update_station_sparse` at the sample store, including an
update map with only an unrecognized key being a no-op. -/
theorem update_station_sparse_witness :
    (updateStation wStore "s1" [("name", JsonVal.str "X")] 200).stations =
      wStore.stations.map (fun s =>
        if s.id = "s1" then { s with name := "X", updated_at := 200 } else s) ∧
    updateStation wStore "s1" [("bogus", JsonVal.str "v")] 200 = wStore := by
  refine ⟨(update_station_sparse wStore "s1" "X" 200).1.1,
    (update_station_sparse wStore "s1" "X" 200).2 [("bogus", JsonVal.str "v")] ?_⟩
  intro kv hkv
  rw [List.mem_singleton] at hkv
  subst hkv
  decide

/-- C6 counterexample: an update with an empty map does not bump
`updated_at` — the store is returned unchanged and the stored timestamp stays
at 100 instead of the current time 200. -/
theorem update_station_empty_map_counterexample :
    updateStation wStore "s1" [] 200 = wStore ∧
    (updateStation wStore "s1" [] 200).stations.map (fun s => s.updated_at) =
      [100] ∧
    (100 : Int) ≠ 200 :=
  ⟨rfl, rfl, by decide⟩

/-- C6 (amended): `update_station` bumps `updated_at` exactly when the update
map contains at least one recognized key. With no recognized key the store is
unchanged; with a recognized key every matching row is rewritten with its
`updated_at` set to the current timestamp `now` (and the recognized fields
applied), so in particular every resulting row with the targeted id carries
`updated_at = now`. Every resulting row is either an original row or carries
`updated_at = now`, so the timestamp is monotonic non-decreasing whenever the
clock is. -/
theorem update_station_timestamp (st : StoreState) (sid : String)
    (updates : List (String × JsonVal)) (now : Int) :
    (updates.any (fun kv => stationKeyRecognized kv.1) = false →
      updateStation st sid updates now = st) ∧
    (updates.any (fun kv => stationKeyRecognized kv.1) = true →
      (updateStation st sid updates now).stations =
        st.stations.map (fun s =>
          if s.id = sid then
            { updates.foldl (fun acc kv => applyStationField acc kv.1 kv.2) s with
              updated_at := now }
          else s) ∧
      ∀ s' ∈ (updateStation st sid updates now).stations,
        s'.id = sid → s'.updated_at = now) ∧
    (∀ s' ∈ (updateStation st sid updates now).stations,
      s' ∈ st.stations ∨ s'.updated_at = now) := by
  refine ⟨?_, ?_, ?_⟩
  · intro h
    simp [updateStation, h]
  · intro hany
    constructor
    · simp only [updateStation, hany, if_true]
    · intro s' hs' hsid
      simp only [updateStation, hany, if_true, List.mem_map] at hs'
      obtain ⟨s, hs, heq⟩ := hs'
      by_cases hid : s.id = sid
      · rw [← heq]
        simp [hid]
      · exfalso
        apply hid
        rw [← heq] at hsid
        simp [hid] at hsid
  · intro s' hs'
    by_cases hany : updates.any (fun kv => stationKeyRecognized kv.1) = true
    · simp only [updateStation, hany, if_true, List.mem_map] at hs'
      obtain ⟨s, hs, heq⟩ := hs'
      by_cases hid : s.id = sid
      · right
        rw [← heq]
        simp [hid]
      · left
        rw [← heq]
        simp only [hid, if_false]
        exact hs
    · have h' : updates.any (fun kv => stationKeyRecognized kv.1) = false := by
        simpa using hany
      left
      simpa [updateStation, h'] using hs'

/-- Witness for `update_station_timestamp` at the sample store: the
unrecognized-key-only map is a no-op, while a `name` update rewrites the
matching row with `updated_at = 200` — the stored timestamps become `[200]`. -/
theorem update_station_timestamp_witness :
    updateStation wStore "s1" [("bogus", JsonVal.null)] 200 = wStore ∧
    (updateStation wStore "s1" [("name", JsonVal.str "X")] 200).stations =
      wStore.stations.map (fun s =>
        if s.id = "s1" then
          { [("name", JsonVal.str "X")].foldl
              (fun acc kv => applyStationField acc kv.1 kv.2) s with
            updated_at := 200 }
        else s) ∧
    (∀ s' ∈ (updateStation wStore "s1" [("name", JsonVal.str "X")] 200).stations,
      s'.id = "s1" → s'.updated_at = 200) ∧
    (updateStation wStore "s1" [("name", JsonVal.str "X")] 200).stations.map
      (fun s => s.updated_at) = [200] := by
  have h1 := update_station_timestamp wStore "s1" [("bogus", JsonVal.null)] 200
  have h2 := update_station_timestamp wStore "s1" [("name", JsonVal.str "X")] 200
  refine ⟨h1.1 (by decide), (h2.2.1 (by decide)).1, (h2.2.1 (by decide)).2, ?_⟩
  decide

/-- C2 counterexample: a document whose env map holds only a non-empty
`ANTHROPIC_AUTH_TOKEN` and no base URL satisfies the spec's condition for
`is_applied()` but the code returns `false`, refuting the claimed iff. -/
theorem is_provider_applied_counterexample :
    specIsApplied c2doc = true ∧ isProviderApplied c2doc = false :=
  ⟨rfl, rfl⟩

/-- C2 (amended): `is_applied()` returns true iff the env map is present and
contains a string base URL, and additionally that URL differs from the
canonical public endpoint or non-empty auth material is present. -/
theorem is_provider_applied_characterization (doc : ClaudeSettings) :
    isProviderApplied doc = true ↔
      ∃ env, doc.env = some env ∧
        ∃ u, envStr env "ANTHROPIC_BASE_URL" = some u ∧
          (u ≠ "https://api.anthropic.com" ∨
            (envHasNonEmptyStr env "ANTHROPIC_AUTH_TOKEN" ||
             envHasNonEmptyStr env "ANTHROPIC_API_KEY") = true) := by
  cases hdoc : doc.env with
  | none => simp [isProviderApplied, hdoc]
  | some env =>
    cases hurl : envStr env "ANTHROPIC_BASE_URL" with
    | none => simp [isProviderApplied, hdoc, hurl]
    | some u =>
      by_cases hu : u = "https://api.anthropic.com"
      · subst hu
        simp [isProviderApplied, hdoc, hurl]
      · simp [isProviderApplied, hdoc, hurl, hu]

/-- C3 counterexample: with the first file write succeeding and the second
failing, `switch_provider_config` surfaces an error while the document is
neither fully updated (the auth token the config carries is absent) nor left
as it was read (the base URL has already changed) — the multi-key write is
not atomic. -/
theorem switch_provider_atomicity_counterexample :
    (switchProviderConfig [true, false] c3doc c3cfg).2 =
      .error "写入 Claude settings 文件失败: ANTHROPIC_AUTH_TOKEN" ∧
    (switchProviderConfig [true, false] c3doc c3cfg).1 ≠ c3doc ∧
    envGetDoc (switchProviderConfig [true, false] c3doc c3cfg).1
      "ANTHROPIC_BASE_URL" = some (JsonVal.str "https://relay.example") ∧
    envGetDoc (switchProviderConfig [true, false] c3doc c3cfg).1
      "ANTHROPIC_AUTH_TOKEN" = none := by
  refine ⟨rfl, ?_, rfl, rfl⟩
  decide

/-- C3 (amended): when every individual key write succeeds,
`switch_provider_config` succeeds and all four keys of the settings document
are updated as the config dictates (value written, or key removed when the
config field is absent); a failing write mid-sequence aborts immediately and
is surfaced, leaving the keys written before it updated. -/
theorem switch_all_writes_succeed (oracle : List Bool) (doc : ClaudeSettings)
    (config : ProviderConfig) (hok : ∀ b ∈ oracle, b = true) :
    (∃ msg, (switchProviderConfig oracle doc config).2 = .ok msg) ∧
    envGetDoc (switchProviderConfig oracle doc config).1 "ANTHROPIC_BASE_URL" =
      some (JsonVal.str config.base_url) ∧
    envGetDoc (switchProviderConfig oracle doc config).1 "ANTHROPIC_AUTH_TOKEN" =
      config.auth_token.map JsonVal.str ∧
    envGetDoc (switchProviderConfig oracle doc config).1 "ANTHROPIC_API_KEY" =
      config.api_key.map JsonVal.str ∧
    envGetDoc (switchProviderConfig oracle doc config).1 "ANTHROPIC_MODEL" =
      config.model.map JsonVal.str := by
  have hrun := runSettingsWrites_all_ok (switchWrites config) oracle doc hok
  have hswitch : switchProviderConfig oracle doc config =
      ((switchWrites config).foldl (fun d w => updateSettingsEnv d w.1 w.2) doc,
        .ok ("已成功切换到 " ++ config.name ++ " (" ++ config.description ++
          ")，配置已保存到 Raw Settings")) := by
    simp [switchProviderConfig, hrun]
  rw [hswitch]
  have hd : (switchWrites config).foldl (fun d w => updateSettingsEnv d w.1 w.2) doc =
      updateSettingsEnv (updateSettingsEnv (updateSettingsEnv
        (updateSettingsEnv doc "ANTHROPIC_BASE_URL" (some config.base_url))
        "ANTHROPIC_AUTH_TOKEN" config.auth_token)
        "ANTHROPIC_API_KEY" config.api_key)
        "ANTHROPIC_MODEL" config.model := rfl
  refine ⟨⟨_, rfl⟩, ?_, ?_, ?_, ?_⟩
  · rw [hd, envGetDoc_update_other _ _ _ _ (by decide),
      envGetDoc_update_other _ _ _ _ (by decide),
      envGetDoc_update_other _ _ _ _ (by decide),
      envGetDoc_update_self]
    rfl
  · rw [hd, envGetDoc_update_other _ _ _ _ (by decide),
      envGetDoc_update_other _ _ _ _ (by decide),
      envGetDoc_update_self]
  · rw [hd, envGetDoc_update_other _ _ _ _ (by decide),
      envGetDoc_update_self]
  · rw [hd, envGetDoc_update_self]

/-- Witness for `switch_all_writes_succeed` with an all-successful oracle at
the sample document and config. -/
theorem switch_all_writes_succeed_witness :
    (∀ b ∈ [true, true, true, true], b = true) ∧
    (∃ msg, (switchProviderConfig [true, true, true, true] c3doc c3cfg).2 =
      .ok msg) ∧
    envGetDoc (switchProviderConfig [true, true, true, true] c3doc c3cfg).1
      "ANTHROPIC_BASE_URL" = some (JsonVal.str "https://relay.example") := by
  have h := switch_all_writes_succeed [true, true, true, true] c3doc c3cfg
    (by decide)
  exact ⟨by decide, h.1, h.2.1⟩

/-- C4: every key other than the four well-known keys — any unrelated env
entry and every top-level key of the document — is unchanged by
`switch_provider_config`, whatever the outcome of the individual writes. -/
theorem switch_preserves_unrelated_keys (oracle : List Bool)
    (doc : ClaudeSettings) (config : ProviderConfig) (k : String)
    (h1 : k ≠ "ANTHROPIC_BASE_URL") (h2 : k ≠ "ANTHROPIC_AUTH_TOKEN")
    (h3 : k ≠ "ANTHROPIC_API_KEY") (h4 : k ≠ "ANTHROPIC_MODEL") :
    envGetDoc (switchProviderConfig oracle doc config).1 k = envGetDoc doc k ∧
    (switchProviderConfig oracle doc config).1.other = doc.other := by
  have hw : ∀ w ∈ switchWrites config, w.1 ≠ k := by
    intro w hmem
    simp only [switchWrites, List.mem_cons, List.not_mem_nil, or_false] at hmem
    rcases hmem with rfl | rfl | rfl | rfl
    · exact fun he => h1 he.symm
    · exact fun he => h2 he.symm
    · exact fun he => h3 he.symm
    · exact fun he => h4 he.symm
  have hp := runSettingsWrites_env_other (switchWrites config) oracle doc k hw
  have hfst : (switchProviderConfig oracle doc config).1 =
      (runSettingsWrites oracle doc (switchWrites config)).1 := by
    rcases hres : runSettingsWrites oracle doc (switchWrites config) with ⟨doc', res⟩
    cases res with
    | ok u =>
      cases u
      simp [switchProviderConfig, hres]
    | error e => simp [switchProviderConfig, hres]
  rw [hfst]
  exact hp

/-- Witness for `switch_preserves_unrelated_keys`: the unrelated env entry
`FOO` and the unrelated top-level key survive a full switch unchanged. -/
theorem switch_preserves_unrelated_keys_witness :
    envGetDoc (switchProviderConfig [true, true, true, true] c3doc c3cfg).1
      "FOO" = envGetDoc c3doc "FOO" ∧
    (switchProviderConfig [true, true, true, true] c3doc c3cfg).1.other =
      c3doc.other ∧
    envGetDoc c3doc "FOO" = some (JsonVal.str "bar") := by
  have h := switch_preserves_unrelated_keys [true, true, true, true] c3doc c3cfg
    "FOO" (by decide) (by decide) (by decide) (by decide)
  exact ⟨h.1, h.2, rfl⟩

/-- C7: with a string base URL and non-empty auth material in the env map,
`detect_current_provider` returns the id of a stored provider whose base URL
matches when one exists, otherwise "official" for the canonical endpoint and
"custom" for any other URL; with no base URL or no auth material it returns
`none`. -/
theorem detect_current_provider_spec (doc : ClaudeSettings)
    (providers : List ProviderConfig) :
    (∀ env url, doc.env = some env →
      envStr env "ANTHROPIC_BASE_URL" = some url →
      (envHasNonEmptyStr env "ANTHROPIC_AUTH_TOKEN" ||
       envHasNonEmptyStr env "ANTHROPIC_API_KEY") = true →
      ((∃ p ∈ providers, p.base_url = url) →
        ∃ p ∈ providers, p.base_url = url ∧
          detectCurrentProvider doc providers = some p.id) ∧
      ((∀ p ∈ providers, p.base_url ≠ url) →
        detectCurrentProvider doc providers =
          some (if url = "https://api.anthropic.com" then "official"
            else "custom"))) ∧
    (∀ env, doc.env = some env →
      envStr env "ANTHROPIC_BASE_URL" = none →
      detectCurrentProvider doc providers = none) ∧
    (∀ env, doc.env = some env →
      (envHasNonEmptyStr env "ANTHROPIC_AUTH_TOKEN" ||
       envHasNonEmptyStr env "ANTHROPIC_API_KEY") = false →
      detectCurrentProvider doc providers = none) ∧
    (doc.env = none → detectCurrentProvider doc providers = none) := by
  refine ⟨?_, ?_, ?_, ?_⟩
  · intro env url henv hurl hauth
    constructor
    · rintro ⟨p, hp, hbase⟩
      have hsome : (providers.find? (fun q => decide (q.base_url = url))).isSome := by
        rw [List.find?_isSome]
        exact ⟨p, hp, by simp [hbase]⟩
      obtain ⟨q, hq⟩ := Option.isSome_iff_exists.mp hsome
      have hqmem := List.mem_of_find?_eq_some hq
      have hqbase : q.base_url = url := by
        have := List.find?_some hq
        simpa using this
      refine ⟨q, hqmem, hqbase, ?_⟩
      simp [detectCurrentProvider, henv, hurl, hauth, hq]
    · intro hnone
      have hfind : providers.find? (fun q => decide (q.base_url = url)) = none := by
        rw [List.find?_eq_none]
        intro q hqmem
        simp [hnone q hqmem]
      simp only [detectCurrentProvider, henv, hurl, hauth, hfind, if_true]
      by_cases hu : url = "https://api.anthropic.com" <;> simp [hu]
  · intro env henv hurl
    simp [detectCurrentProvider, henv, hurl]
  · intro env henv hauth
    cases hurl : envStr env "ANTHROPIC_BASE_URL" with
    | none => simp [detectCurrentProvider, henv, hurl]
    | some u => simp [detectCurrentProvider, henv, hurl, hauth]
  · intro henv
    simp [detectCurrentProvider, henv]

/-- Witness for `detect_current_provider_spec`: the canonical URL with no
stored providers yields "official"; a URL matching the stored config `c3cfg`
yields its id. -/
theorem detect_current_provider_spec_witness :
    detectCurrentProvider c7doc [] = some "official" ∧
    (∃ p ∈ [c3cfg], p.base_url = "https://relay.example" ∧
      detectCurrentProvider c7docRelay [c3cfg] = some p.id) := by
  constructor
  · have h := ((detect_current_provider_spec c7doc []).1 c7env
      "https://api.anthropic.com" rfl (by decide) (by decide)).2 (by
        intro p hp
        cases hp)
    simpa using h
  · exact ((detect_current_provider_spec c7docRelay [c3cfg]).1 c7envRelay
      "https://relay.example" rfl (by decide) (by decide)).1
      ⟨c3cfg, by simp, by decide⟩
